import Mathlib

/-!
Shallow embedding of the flask-todo-cicd application.

Sources: `src/app/__init__.py` (composition root, limiter, app-level
`/api/health` route, error handlers) is embedded directly.  The files
`app/models.py`, `app/routes.py` and `app/config.py` are not present under
`src/` (only their tests and callers are), so the Todo model, the CRUD/health
blueprint handlers and the configuration selector are modelled from the spec,
with the test files `src/tests/test_app.py` and `src/tests/test_config.py`
used to corroborate the shapes.  Timestamps are abstracted as natural
numbers; JSON response bodies are a record of optional fields.
-/

namespace FlaskTodo

/-- Modelled from the spec: the `Todo` entity of `app/models.py` (absent from
`src/`).  Fields: identifier, title, description, completed flag, created
timestamp, updated timestamp (spec section 3; corroborated by
`test_todo_to_dict_and_repr`).  Timestamps are abstract naturals. -/
structure Todo where
  id : Nat
  title : String
  description : String
  completed : Bool
  created_at : Nat
  updated_at : Nat
  deriving DecidableEq, Repr

/-- The persistent state: the rows of the single Todo table plus the next
auto-assigned identifier. -/
structure Store where
  todos : List Todo
  nextId : Nat
  deriving DecidableEq, Repr

def emptyStore : Store := ⟨[], 1⟩

/-- A JSON-object response body, as a record of the optional fields the
handlers emit (`jsonify` dictionaries). -/
structure Body where
  success : Option Bool := none
  error : Option String := none
  message : Option String := none
  data : Option Todo := none
  dataList : Option (List Todo) := none
  count : Option Nat := none
  status : Option String := none
  database : Option String := none
  deriving DecidableEq, Repr

/-- Modelled from the spec: the blueprint health handler of `app/routes.py`
(absent from `src/`).  It issues a liveness probe against the store; on
success it returns 200 `{status: "healthy", database: "connected"}`, on an
exception 503 `{status: "unhealthy", database: "disconnected", error: <msg>}`
(corroborated by `TestHealthCheck`).  The probe outcome is passed in as an
`Except`; the handler is a total function of it, so no exception escapes. -/
def healthHandler (probe : Except String Unit) : Nat × Body :=
  match probe with
  | Except.ok _ =>
      (200, { status := some "healthy", database := some "connected" })
  | Except.error e =>
      (503, { status := some "unhealthy", database := some "disconnected",
              error := some e })

/-- The app-level `/api/health` handler registered in `src/app/__init__.py`
lines 44-46: returns `{"status": "ok"}` with 200 unconditionally, ignoring
the store probe entirely. -/
def health (_probe : Except String Unit) : Nat × Body :=
  (200, { status := some "ok" })

/-- The JSON body of a create request (`POST /api/todos`). -/
structure CreateBody where
  title : Option String := none
  description : Option String := none
  deriving DecidableEq, Repr

/-- Modelled from the spec: the create handler of `app/routes.py` (absent
from `src/`).  Requires a non-empty `title` (400 `Title is required`, no
persistence, otherwise); description defaults to the empty string, completed
to false; id and both timestamps are assigned by the persistence layer
(corroborated by `test_create_todo_without_title`,
`test_create_todo_with_title_only`). -/
def create_todo (s : Store) (b : CreateBody) (now : Nat) : (Nat × Body) × Store :=
  match b.title with
  | none =>
      ((400, { success := some false, error := some "Title is required" }), s)
  | some t =>
      if t = "" then
        ((400, { success := some false, error := some "Title is required" }), s)
      else
        let todo : Todo := ⟨s.nextId, t, b.description.getD "", false, now, now⟩
        ((201, { success := some true, data := some todo,
                 message := some "Todo created successfully" }),
         ⟨s.todos ++ [todo], s.nextId + 1⟩)

/-- Row lookup by identifier (`Todo.query.get(id)`). -/
def findTodo (s : Store) (id : Nat) : Option Todo :=
  s.todos.find? (fun t => t.id == id)

/-- Modelled from the spec: the get-by-id handler of `app/routes.py` (absent
from `src/`): 404 when the id has no row, otherwise 200 with the serialized
row (corroborated by `test_get_todo_by_id`, `test_get_nonexistent_todo`). -/
def get_todo (s : Store) (id : Nat) : Nat × Body :=
  match findTodo s id with
  | none => (404, { success := some false, error := some "Todo not found" })
  | some t => (200, { success := some true, data := some t })

/-- The JSON body of an update request (`PUT /api/todos/{id}`). -/
structure UpdateBody where
  title : Option String := none
  description : Option String := none
  completed : Option Bool := none
  deriving DecidableEq, Repr

/-- Applying an update body to a row: only the supplied fields change, and
the updated timestamp is refreshed to the current time. -/
def applyUpdate (t : Todo) (b : UpdateBody) (now : Nat) : Todo :=
  { t with
    title := b.title.getD t.title
    description := b.description.getD t.description
    completed := b.completed.getD t.completed
    updated_at := now }

/-- Modelled from the spec: the update handler of `app/routes.py` (absent
from `src/`): 404 when the id has no row; otherwise applies only the fields
present in the body, refreshes the updated timestamp, persists, and returns
200 with the serialized row (corroborated by `TestTodoAPI` update tests). -/
def update_todo (s : Store) (id : Nat) (b : UpdateBody) (now : Nat) :
    (Nat × Body) × Store :=
  match findTodo s id with
  | none => ((404, { success := some false, error := some "Todo not found" }), s)
  | some t =>
      let u := applyUpdate t b now
      ((200, { success := some true, data := some u,
               message := some "Todo updated successfully" }),
       ⟨s.todos.map (fun x => if x.id == id then u else x), s.nextId⟩)

/-- Modelled from the spec: the delete handler of `app/routes.py` (absent
from `src/`): 404 when the id has no row; otherwise hard-deletes the row
(no tombstone) and returns 200 (corroborated by `test_delete_todo`,
`test_delete_nonexistent_todo`). -/
def delete_todo (s : Store) (id : Nat) : (Nat × Body) × Store :=
  match findTodo s id with
  | none => ((404, { success := some false, error := some "Todo not found" }), s)
  | some _ =>
      ((200, { success := some true, message := some "Todo deleted successfully" }),
       ⟨s.todos.filter (fun t => !(t.id == id)), s.nextId⟩)

/-- The ordering used by the list handler: newest first, i.e. row `a` comes
before row `b` when `a.created_at ≥ b.created_at`. -/
def createdGe (a b : Todo) : Prop := b.created_at ≤ a.created_at

instance : DecidableRel createdGe :=
  fun a b => inferInstanceAs (Decidable (b.created_at ≤ a.created_at))

instance : IsTotal Todo createdGe :=
  ⟨fun a b => (Nat.le_total b.created_at a.created_at)⟩

instance : IsTrans Todo createdGe :=
  ⟨fun _ _ _ hab hbc => Nat.le_trans hbc hab⟩

/-- Modelled from the spec: the `ORDER BY created_at DESC` read of the list
handler, as a sort of the stored rows by created timestamp descending. -/
def sortByCreatedDesc (l : List Todo) : List Todo :=
  l.insertionSort createdGe

/-- Modelled from the spec: the list handler of `app/routes.py` (absent from
`src/`): reads all rows newest-first and returns 200
`{success: true, count: N, data: [...]}` (corroborated by
`test_get_empty_todos`, `test_get_all_todos_ordered`). -/
def get_todos (s : Store) : Nat × Body :=
  let ds := sortByCreatedDesc s.todos
  (200, { success := some true, count := some ds.length, dataList := some ds })

/-! Configuration (modelled from the spec: `app/config.py` is absent from
`src/`; corroborated by `src/tests/test_config.py`). -/

/-- The process environment, restricted to the two variables the
configuration reads. -/
structure Env where
  flaskEnv : Option String := none
  databaseUrl : Option String := none
  deriving DecidableEq, Repr

/-- The named configuration profiles. -/
inductive Profile
  | development
  | testing
  | production
  deriving DecidableEq, Repr

/-- The recognized keys of the `config` mapping
(`test_config_contains_all_environments`). -/
def knownConfigNames : List String :=
  ["development", "testing", "production", "default"]

/-- Modelled from the spec: the `config` selector mapping of `app/config.py`
(absent from `src/`).  `development`, `testing`, `production` select their
profiles, `default` is `development` (`test_default_is_development`), and an
unknown profile name falls back to `development`. -/
def selectConfig (name : String) : Profile :=
  if name = "testing" then Profile.testing
  else if name = "production" then Profile.production
  else Profile.development

/-- Modelled from the spec: the local default connection string of the
development profile, used when the environment variable is absent. -/
def devDefaultUri : String := "sqlite:///dev.db"

/-- The settings bundle of a profile. -/
structure Settings where
  debug : Bool
  testing : Bool
  databaseUri : String
  deriving DecidableEq, Repr

/-- Modelled from the spec: the settings carried by each profile class of
`app/config.py` (absent from `src/`): development has debug on and a
connection string from the environment or a local default; testing uses an
in-memory store with permissive flags; production has debug off and takes
the connection string from the environment (validated by `initAppProfile`). -/
def settingsFor (p : Profile) (env : Env) : Settings :=
  match p with
  | Profile.development => ⟨true, false, env.databaseUrl.getD devDefaultUri⟩
  | Profile.testing => ⟨true, true, "sqlite:///:memory:"⟩
  | Profile.production => ⟨false, false, env.databaseUrl.getD ""⟩

/-- Modelled from the spec: the per-profile `init_app` step of
`app/config.py` (absent from `src/`).  The production profile performs a
hard assertion that the connection-string variable is present; failing it
aborts startup (modelled as `Except.error`); the other profiles do nothing
(corroborated by `TestProductionConfig`). -/
def initAppProfile (p : Profile) (env : Env) : Except String Unit :=
  match p with
  | Profile.production =>
      match env.databaseUrl with
      | none => Except.error "DATABASE_URL must be set in production"
      | some _ => Except.ok ()
  | _ => Except.ok ()

/-! Application composition root, from `src/app/__init__.py`. -/

/-- The request handlers reachable from the route table.  The blueprint
handlers live in `app/routes.py`; `index` and `appHealth` are defined
directly in `src/app/__init__.py`. -/
inductive Handler
  | blueprintHealth
  | listTodos
  | createTodo
  | getTodoById
  | updateTodoById
  | deleteTodoById
  | index
  | appHealth
  deriving DecidableEq, Repr

/-- A registered URL rule: HTTP method, path, handler. -/
structure Route where
  method : String
  path : String
  handler : Handler
  deriving DecidableEq, Repr

/-- Modelled from the spec: the routes of the `api` blueprint of
`app/routes.py` (absent from `src/`), registered under the `/api` URL
prefix by `create_app` (corroborated by the paths exercised in
`src/tests/test_app.py`). -/
def apiBlueprintRoutes : List Route :=
  [⟨"GET", "/api/health", Handler.blueprintHealth⟩,
   ⟨"GET", "/api/todos", Handler.listTodos⟩,
   ⟨"POST", "/api/todos", Handler.createTodo⟩,
   ⟨"GET", "/api/todos/<id>", Handler.getTodoById⟩,
   ⟨"PUT", "/api/todos/<id>", Handler.updateTodoById⟩,
   ⟨"DELETE", "/api/todos/<id>", Handler.deleteTodoById⟩]

/-- The full route table built by `create_app`: the blueprint is registered
first (`src/app/__init__.py` line 31), then the root endpoint (line 34) and
the app-level `/api/health` route (line 44). -/
def composedRoutes : List Route :=
  apiBlueprintRoutes ++
    [⟨"GET", "/", Handler.index⟩, ⟨"GET", "/api/health", Handler.appHealth⟩]

/-- The rate-limit window units used by the default limits. -/
inductive Period
  | day
  | hour
  deriving DecidableEq, Repr

/-- One rate ceiling, e.g. 200 requests per day. -/
structure RateLimit where
  amount : Nat
  per : Period
  deriving DecidableEq, Repr

/-- How the limiter identifies a client. -/
inductive KeyFunc
  | remoteAddress
  deriving DecidableEq, Repr

/-- The limiter configuration. -/
structure LimiterConfig where
  keyFunc : KeyFunc
  defaultLimits : List RateLimit
  deriving DecidableEq, Repr

/-- The module-level limiter of `src/app/__init__.py` lines 11-14: keyed on
the client's remote address, default limits 200 per day and 50 per hour. -/
def limiter : LimiterConfig :=
  ⟨KeyFunc.remoteAddress, [⟨200, Period.day⟩, ⟨50, Period.hour⟩]⟩

/-- The composed application: its immutable settings, the limiter bound by
`limiter.init_app(app)`, and its route table. -/
structure App where
  settings : Settings
  limiterConfig : Option LimiterConfig
  routes : List Route
  deriving DecidableEq, Repr

/-- The application factory `create_app` of `src/app/__init__.py`: resolves
the profile name (falling back to the environment variable, then to
`development`), loads the profile's settings, runs the profile's `init_app`
assertion (a failure aborts startup before any route is served), binds the
limiter, and registers the blueprint and the app-level routes. -/
def create_app (name : Option String) (env : Env) : Except String App :=
  let configName := name.getD (env.flaskEnv.getD "development")
  let profile := selectConfig configName
  match initAppProfile profile env with
  | Except.error e => Except.error e
  | Except.ok _ =>
      Except.ok
        { settings := settingsFor profile env
          limiterConfig := some limiter
          routes := composedRoutes }

/-- URL dispatch: the first registered rule matching the method and path
wins (Werkzeug keeps registration order between identical static rules;
corroborated by `TestHealthCheck`, which observes the blueprint handler). -/
def matchRoute (routes : List Route) (method path : String) : Option Handler :=
  (routes.find? (fun r => r.method == method && r.path == path)).map Route.handler

/-- Request processing with the flask-limiter gate in front: when the
limiter is bound and the client is over a default limit the request is
rejected with 429 before any routing or handler runs; otherwise the request
is dispatched, unmatched paths getting the 404 handler of
`src/app/__init__.py` lines 49-51. -/
def processRequest (app : App) (method path : String) (allowed : Bool)
    (respond : Handler → Nat × Body) : Nat × Body :=
  if app.limiterConfig.isSome && !allowed then
    (429, { success := some false, error := some "rate limit exceeded" })
  else
    match matchRoute app.routes method path with
    | none => (404, { success := some false, error := some "Resource not found" })
    | some h => respond h

/-! Theorems settling the claims. -/

/-- Claim C1: for every invocation of the health operation, a successful store
probe yields status 200 with `{status: "healthy", database: "connected"}`
and a probe exception with message `e` yields status 503 with
`{status: "unhealthy", database: "disconnected", error: e}`; the handler is
a total function of the probe outcome, so no exception propagates past it. -/
theorem health_contract :
    healthHandler (Except.ok ()) =
      (200, { status := some "healthy", database := some "connected" }) ∧
    ∀ e : String, healthHandler (Except.error e) =
      (503, { status := some "unhealthy", database := some "disconnected",
              error := some e }) :=
  ⟨rfl, fun _ => rfl⟩

/-- Claim C2: any profile name outside the recognized ones
(`development`/`testing`/`production`/`default`) selects the development
profile rather than failing, and application creation with such a name
behaves exactly as with `development`. -/
theorem unknown_profile_falls_back (name : String)
    (h : name ∉ knownConfigNames) :
    selectConfig name = Profile.development ∧
    selectConfig name = selectConfig "development" ∧
    ∀ env : Env, create_app (some name) env = create_app (some "development") env := by
  simp only [knownConfigNames, List.mem_cons, List.mem_singleton, not_or] at h
  obtain ⟨-, h₂, h₃, -⟩ := h
  have hsel : selectConfig name = Profile.development := by
    unfold selectConfig
    rw [if_neg h₂, if_neg h₃]
  have hdev : selectConfig "development" = Profile.development := by decide
  refine ⟨hsel, by rw [hsel, hdev], fun env => ?_⟩
  unfold create_app
  simp only [Option.getD_some]
  rw [hsel, hdev]

/-- Witness for C2 at the unrecognized name `staging`. -/
theorem unknown_profile_falls_back_witness :
    selectConfig "staging" = Profile.development ∧
    create_app (some "staging") ⟨none, none⟩ =
      create_app (some "development") ⟨none, none⟩ := by
  have h := unknown_profile_falls_back "staging" (by decide)
  exact ⟨h.1, h.2.2 ⟨none, none⟩⟩

/-- Claim C3: with the production profile selected and no connection-string
variable in the environment, application startup aborts with the fatal
assertion error (no `App` value is produced, so no request is ever served);
with the variable present, startup succeeds and debug is off. -/
theorem production_startup (env : Env) :
    (env.databaseUrl = none →
      create_app (some "production") env =
        Except.error "DATABASE_URL must be set in production") ∧
    (∀ url : String, env.databaseUrl = some url →
      ∃ app : App, create_app (some "production") env = Except.ok app ∧
        app.settings.debug = false) := by
  constructor
  · intro hnone
    simp [create_app, selectConfig, initAppProfile, hnone]
  · intro url hurl
    refine ⟨{ settings := settingsFor Profile.production env,
              limiterConfig := some limiter,
              routes := composedRoutes }, ?_, rfl⟩
    simp [create_app, selectConfig, initAppProfile, hurl]

/-- Witness for C3: startup fails with an empty environment and succeeds
with a connection string set. -/
theorem production_startup_witness :
    create_app (some "production") ⟨none, none⟩ =
      Except.error "DATABASE_URL must be set in production" ∧
    ∃ app : App,
      create_app (some "production") ⟨none, some "postgresql://u:p@h/db"⟩ =
        Except.ok app ∧ app.settings.debug = false :=
  ⟨(production_startup ⟨none, none⟩).1 rfl,
   (production_startup ⟨none, some "postgresql://u:p@h/db"⟩).2
     "postgresql://u:p@h/db" rfl⟩

/-- Claim C4: a create request whose body lacks a title or has an empty title
returns status 400 with `{success: false, error: "Title is required"}` and
leaves the store unchanged, so the list count is the same before and after. -/
theorem create_without_title (s : Store) (b : CreateBody) (now : Nat)
    (h : b.title = none ∨ b.title = some "") :
    create_todo s b now =
      ((400, { success := some false, error := some "Title is required" }), s) ∧
    (get_todos (create_todo s b now).2).2.count = (get_todos s).2.count := by
  have heq : create_todo s b now =
      ((400, { success := some false, error := some "Title is required" }), s) := by
    rcases h with h | h <;> simp [create_todo, h]
  exact ⟨heq, by rw [heq]⟩

/-- Witness for C4 at an empty body and at an explicit empty title. -/
theorem create_without_title_witness :
    create_todo emptyStore ⟨none, none⟩ 5 =
      ((400, { success := some false, error := some "Title is required" }),
       emptyStore) ∧
    create_todo emptyStore ⟨some "", some "d"⟩ 5 =
      ((400, { success := some false, error := some "Title is required" }),
       emptyStore) :=
  ⟨(create_without_title emptyStore ⟨none, none⟩ 5 (Or.inl rfl)).1,
   (create_without_title emptyStore ⟨some "", some "d"⟩ 5 (Or.inr rfl)).1⟩

/-- Claim C5: a create request with a non-empty title returns status 201 echoing
the supplied title and description (description defaulting to the empty
string when absent, completed defaulting to false), and a subsequent
get-by-id with the returned identifier returns status 200 with the same
data.  The freshness hypothesis is the persistence layer's uniqueness of
the auto-assigned identifier. -/
theorem create_valid (s : Store) (b : CreateBody) (t : String) (now : Nat)
    (ht : b.title = some t) (hne : t ≠ "")
    (hfresh : ∀ u ∈ s.todos, u.id ≠ s.nextId) :
    (create_todo s b now).1.1 = 201 ∧
    ∃ todo : Todo,
      (create_todo s b now).1.2.data = some todo ∧
      todo.title = t ∧
      todo.description = b.description.getD "" ∧
      todo.completed = false ∧
      get_todo (create_todo s b now).2 todo.id =
        (200, { success := some true, data := some todo }) := by
  have hres : create_todo s b now =
      ((201, { success := some true,
               data := some ⟨s.nextId, t, b.description.getD "", false, now, now⟩,
               message := some "Todo created successfully" }),
       ⟨s.todos ++ [⟨s.nextId, t, b.description.getD "", false, now, now⟩],
        s.nextId + 1⟩) := by
    simp [create_todo, ht, hne]
  have hnone : s.todos.find? (fun u => u.id == s.nextId) = none := by
    rw [List.find?_eq_none]
    intro x hx
    simp [hfresh x hx]
  refine ⟨by rw [hres], ⟨s.nextId, t, b.description.getD "", false, now, now⟩,
          by rw [hres], rfl, rfl, rfl, ?_⟩
  rw [hres]
  unfold get_todo findTodo
  rw [List.find?_append, hnone]
  simp

/-- Witness for C5: creating `Buy milk` in the empty store. -/
theorem create_valid_witness :
    (create_todo emptyStore ⟨some "Buy milk", none⟩ 7).1.1 = 201 ∧
    ∃ todo : Todo,
      (create_todo emptyStore ⟨some "Buy milk", none⟩ 7).1.2.data = some todo ∧
      todo.title = "Buy milk" ∧
      todo.description = (none : Option String).getD "" ∧
      todo.completed = false ∧
      get_todo (create_todo emptyStore ⟨some "Buy milk", none⟩ 7).2 todo.id =
        (200, { success := some true, data := some todo }) :=
  create_valid emptyStore ⟨some "Buy milk", none⟩ "Buy milk" 7 rfl
    (by decide) (by simp [emptyStore])

/-- Claim C6: an update on an existing record returns 200; only the fields present
in the body change and every unsupplied field retains its prior value; the
identifier and created timestamp are untouched; the refreshed updated
timestamp is ≥ the previous updated timestamp (and ≥ the created timestamp,
given the store invariant that the previous updated timestamp already
was); the store rewrites exactly that row.  The clock hypothesis `hmono`
reflects that the persistence layer stamps a current time. -/
theorem update_supplied_fields (s : Store) (id : Nat) (b : UpdateBody) (now : Nat)
    (t : Todo) (hfind : findTodo s id = some t)
    (hmono : t.updated_at ≤ now) (hinv : t.created_at ≤ t.updated_at) :
    (update_todo s id b now).1.1 = 200 ∧
    ∃ u : Todo,
      (update_todo s id b now).1.2.data = some u ∧
      u.id = t.id ∧
      u.created_at = t.created_at ∧
      (b.title = none → u.title = t.title) ∧
      (∀ x, b.title = some x → u.title = x) ∧
      (b.description = none → u.description = t.description) ∧
      (∀ x, b.description = some x → u.description = x) ∧
      (b.completed = none → u.completed = t.completed) ∧
      (∀ x, b.completed = some x → u.completed = x) ∧
      t.updated_at ≤ u.updated_at ∧
      t.created_at ≤ u.updated_at ∧
      (update_todo s id b now).2.todos =
        s.todos.map (fun x => if x.id == id then applyUpdate t b now else x) := by
  have hres : update_todo s id b now =
      ((200, { success := some true, data := some (applyUpdate t b now),
               message := some "Todo updated successfully" }),
       ⟨s.todos.map (fun x => if x.id == id then applyUpdate t b now else x),
        s.nextId⟩) := by
    simp [update_todo, hfind]
  refine ⟨by rw [hres], applyUpdate t b now, by rw [hres],
          rfl, rfl,
          fun h => by simp [applyUpdate, h],
          fun x h => by simp [applyUpdate, h],
          fun h => by simp [applyUpdate, h],
          fun x h => by simp [applyUpdate, h],
          fun h => by simp [applyUpdate, h],
          fun x h => by simp [applyUpdate, h],
          hmono, Nat.le_trans hinv hmono, by rw [hres]⟩

/-- Witness for C6: marking the single stored todo completed, supplying no
other field. -/
theorem update_supplied_fields_witness :
    (update_todo ⟨[⟨1, "Buy milk", "", false, 3, 3⟩], 2⟩ 1
        ⟨none, none, some true⟩ 5).1.1 = 200 ∧
    ∃ u : Todo,
      (update_todo ⟨[⟨1, "Buy milk", "", false, 3, 3⟩], 2⟩ 1
          ⟨none, none, some true⟩ 5).1.2.data = some u ∧
      u.id = (⟨1, "Buy milk", "", false, 3, 3⟩ : Todo).id ∧
      u.created_at = (⟨1, "Buy milk", "", false, 3, 3⟩ : Todo).created_at ∧
      ((none : Option String) = none →
        u.title = (⟨1, "Buy milk", "", false, 3, 3⟩ : Todo).title) ∧
      (∀ x, (none : Option String) = some x → u.title = x) ∧
      ((none : Option String) = none →
        u.description = (⟨1, "Buy milk", "", false, 3, 3⟩ : Todo).description) ∧
      (∀ x, (none : Option String) = some x → u.description = x) ∧
      ((some true : Option Bool) = none →
        u.completed = (⟨1, "Buy milk", "", false, 3, 3⟩ : Todo).completed) ∧
      (∀ x, (some true : Option Bool) = some x → u.completed = x) ∧
      (⟨1, "Buy milk", "", false, 3, 3⟩ : Todo).updated_at ≤ u.updated_at ∧
      (⟨1, "Buy milk", "", false, 3, 3⟩ : Todo).created_at ≤ u.updated_at ∧
      (update_todo ⟨[⟨1, "Buy milk", "", false, 3, 3⟩], 2⟩ 1
          ⟨none, none, some true⟩ 5).2.todos =
        [⟨1, "Buy milk", "", false, 3, 3⟩].map
          (fun x => if x.id == 1
            then applyUpdate ⟨1, "Buy milk", "", false, 3, 3⟩ ⟨none, none, some true⟩ 5
            else x) :=
  update_supplied_fields ⟨[⟨1, "Buy milk", "", false, 3, 3⟩], 2⟩ 1
    ⟨none, none, some true⟩ 5 ⟨1, "Buy milk", "", false, 3, 3⟩
    (by decide) (by decide) (by decide)

/-- Claim C8: deleting an existing identifier yields status 200 the first time and
404 the second; the delete is hard, so a get-by-id after the first delete
also yields 404. -/
theorem delete_twice (s : Store) (id : Nat) (t : Todo)
    (hfind : findTodo s id = some t) :
    (delete_todo s id).1.1 = 200 ∧
    (delete_todo s id).1.2.success = some true ∧
    (delete_todo (delete_todo s id).2 id).1.1 = 404 ∧
    (get_todo (delete_todo s id).2 id).1 = 404 := by
  have hres : delete_todo s id =
      ((200, { success := some true, message := some "Todo deleted successfully" }),
       ⟨s.todos.filter (fun x => !(x.id == id)), s.nextId⟩) := by
    simp [delete_todo, hfind]
  have hnone :
      findTodo ⟨s.todos.filter (fun x => !(x.id == id)), s.nextId⟩ id = none := by
    unfold findTodo
    rw [List.find?_eq_none]
    intro x hx
    simpa using (List.mem_filter.mp hx).2
  refine ⟨by rw [hres], by rw [hres], ?_, ?_⟩
  · rw [hres]
    simp [delete_todo, hnone]
  · rw [hres]
    simp [get_todo, hnone]

/-- Witness for C8: deleting the single stored todo twice. -/
theorem delete_twice_witness :
    (delete_todo ⟨[⟨1, "Buy milk", "", false, 3, 3⟩], 2⟩ 1).1.1 = 200 ∧
    (delete_todo ⟨[⟨1, "Buy milk", "", false, 3, 3⟩], 2⟩ 1).1.2.success = some true ∧
    (delete_todo (delete_todo ⟨[⟨1, "Buy milk", "", false, 3, 3⟩], 2⟩ 1).2 1).1.1 = 404 ∧
    (get_todo (delete_todo ⟨[⟨1, "Buy milk", "", false, 3, 3⟩], 2⟩ 1).2 1).1 = 404 :=
  delete_twice ⟨[⟨1, "Buy milk", "", false, 3, 3⟩], 2⟩ 1
    ⟨1, "Buy milk", "", false, 3, 3⟩ (by decide)

/-- Sorting three rows with strictly increasing created timestamps yields
them newest first. -/
theorem sortByCreatedDesc_three (t₁ t₂ t₃ : Todo)
    (h₁₂ : t₁.created_at < t₂.created_at) (h₂₃ : t₂.created_at < t₃.created_at) :
    sortByCreatedDesc [t₁, t₂, t₃] = [t₃, t₂, t₁] := by
  have e₁₂ : ¬ createdGe t₁ t₂ := by unfold createdGe; omega
  have e₁₃ : ¬ createdGe t₁ t₃ := by unfold createdGe; omega
  have e₂₃ : ¬ createdGe t₂ t₃ := by unfold createdGe; omega
  simp [sortByCreatedDesc, List.insertionSort, List.orderedInsert, e₁₂, e₁₃, e₂₃]

/-- Claim C7: the list operation returns status 200 with `success: true`, a count
equal to the number of stored rows, and data holding exactly the stored
rows sorted by created timestamp descending; in particular, three todos
created in sequence with strictly increasing created timestamps are listed
newest first. -/
theorem list_ordered :
    (∀ s : Store,
      (get_todos s).1 = 200 ∧
      (get_todos s).2.success = some true ∧
      (get_todos s).2.count = some s.todos.length ∧
      ∃ l : List Todo, (get_todos s).2.dataList = some l ∧
        l.Perm s.todos ∧ l.Sorted createdGe) ∧
    (∀ (a b c : String) (n₁ n₂ n₃ : Nat),
      a ≠ "" → b ≠ "" → c ≠ "" → n₁ < n₂ → n₂ < n₃ →
      ((get_todos
          (create_todo (create_todo (create_todo emptyStore ⟨some a, none⟩ n₁).2
              ⟨some b, none⟩ n₂).2 ⟨some c, none⟩ n₃).2).2.dataList.map
        (fun l => l.map Todo.title)) = some [c, b, a]) := by
  constructor
  · intro s
    refine ⟨rfl, rfl, ?_, sortByCreatedDesc s.todos, rfl, ?_, ?_⟩
    · simp [get_todos, sortByCreatedDesc, List.length_insertionSort]
    · exact List.perm_insertionSort createdGe s.todos
    · exact List.sorted_insertionSort createdGe s.todos
  · intro a b c n₁ n₂ n₃ ha hb hc h₁₂ h₂₃
    have hs : (create_todo (create_todo (create_todo emptyStore ⟨some a, none⟩ n₁).2
        ⟨some b, none⟩ n₂).2 ⟨some c, none⟩ n₃).2 =
        ⟨[⟨1, a, "", false, n₁, n₁⟩, ⟨2, b, "", false, n₂, n₂⟩,
          ⟨3, c, "", false, n₃, n₃⟩], 4⟩ := by
      simp [create_todo, emptyStore, ha, hb, hc]
    rw [hs]
    have hsort := sortByCreatedDesc_three ⟨1, a, "", false, n₁, n₁⟩
      ⟨2, b, "", false, n₂, n₂⟩ ⟨3, c, "", false, n₃, n₃⟩ h₁₂ h₂₃
    simp [get_todos, hsort]

/-- Witness for C7: three todos created at times 1 < 2 < 3 are listed
newest first. -/
theorem list_ordered_witness :
    ((get_todos
        (create_todo (create_todo (create_todo emptyStore ⟨some "One", none⟩ 1).2
            ⟨some "Two", none⟩ 2).2 ⟨some "Three", none⟩ 3).2).2.dataList.map
      (fun l => l.map Todo.title)) = some ["Three", "Two", "One"] :=
  list_ordered.2 "One" "Two" "Three" 1 2 3 (by decide) (by decide) (by decide)
    (by decide) (by decide)

/-- The shape of a successfully composed application: the limiter is bound
and the route table is the composed one. -/
theorem create_app_ok_shape (name : Option String) (env : Env) (app : App)
    (h : create_app name env = Except.ok app) :
    app.limiterConfig = some limiter ∧ app.routes = composedRoutes := by
  simp only [create_app] at h
  rcases hi : initAppProfile (selectConfig (name.getD (env.flaskEnv.getD "development"))) env
    with e | u
  · rw [hi] at h
    simp at h
  · rw [hi] at h
    simp only [Except.ok.injEq] at h
    rw [← h]
    exact ⟨rfl, rfl⟩

/-- Claim C9: the composition root registers a second `/api/health` route directly
on the application after the blueprint, so the route table carries the
blueprint handler first and the app-level handler second for that path; the
app-level handler returns status 200 with `{"status": "ok"}` for every
probe outcome, never consulting the store; dispatch takes the first
registered match, so the blueprint handler serves `/api/health`, while the
opposite registration order would make the app-level handler serve it. -/
theorem health_route_shadowing (name : Option String) (env : Env) (app : App)
    (h : create_app name env = Except.ok app) :
    (app.routes.filter
        (fun r => r.method == "GET" && r.path == "/api/health")).map Route.handler =
      [Handler.blueprintHealth, Handler.appHealth] ∧
    matchRoute app.routes "GET" "/api/health" = some Handler.blueprintHealth ∧
    (∀ probe : Except String Unit, health probe = (200, { status := some "ok" })) ∧
    matchRoute app.routes.reverse "GET" "/api/health" = some Handler.appHealth := by
  have hroutes : app.routes = composedRoutes := (create_app_ok_shape name env app h).2
  rw [hroutes]
  exact ⟨by decide, by decide, fun _ => rfl, by decide⟩

/-- Witness for C9 at the testing profile in an empty environment. -/
theorem health_route_shadowing_witness :
    matchRoute composedRoutes "GET" "/api/health" = some Handler.blueprintHealth ∧
    matchRoute composedRoutes.reverse "GET" "/api/health" = some Handler.appHealth := by
  have h := health_route_shadowing (some "testing") ⟨none, none⟩
    ⟨settingsFor Profile.testing ⟨none, none⟩, some limiter, composedRoutes⟩ rfl
  exact ⟨h.2.1, h.2.2.2⟩

/-- Claim C10: every successfully composed application has the module-level
limiter bound, keyed on the client's remote address with default ceilings
of 200 per day and 50 per hour, and the limiter gate sits in front of all
handlers: a request over the limit is answered 429 regardless of method,
path, or what any handler would respond. -/
theorem rate_limiter_binding (name : Option String) (env : Env) (app : App)
    (h : create_app name env = Except.ok app) :
    app.limiterConfig = some limiter ∧
    limiter.keyFunc = KeyFunc.remoteAddress ∧
    limiter.defaultLimits = [⟨200, Period.day⟩, ⟨50, Period.hour⟩] ∧
    ∀ (method path : String) (respond : Handler → Nat × Body),
      processRequest app method path false respond =
        (429, { success := some false, error := some "rate limit exceeded" }) := by
  have hlim : app.limiterConfig = some limiter := (create_app_ok_shape name env app h).1
  refine ⟨hlim, rfl, rfl, fun method path respond => ?_⟩
  simp [processRequest, hlim]

/-- Witness for C10 at the development profile in an empty environment. -/
theorem rate_limiter_binding_witness :
    (⟨settingsFor Profile.development ⟨none, none⟩, some limiter,
        composedRoutes⟩ : App).limiterConfig = some limiter ∧
    processRequest
        ⟨settingsFor Profile.development ⟨none, none⟩, some limiter, composedRoutes⟩
        "GET" "/api/todos" false (fun _ => (200, {})) =
      (429, { success := some false, error := some "rate limit exceeded" }) := by
  have h := rate_limiter_binding none ⟨none, none⟩
    ⟨settingsFor Profile.development ⟨none, none⟩, some limiter, composedRoutes⟩ rfl
  exact ⟨h.1, h.2.2.2 "GET" "/api/todos" (fun _ => (200, {}))⟩

end FlaskTodo
